import Mathlib

/-!
Verification of the WhatsApp-bot relay core (`src/unnamed/part_000`, `src/example.js`):
the filter engine `shouldForwardMessage`, the retrying delivery pipeline
`forwardMessageToAPI`, and the control-plane HTTP gateway handler.

JavaScript values that cross the boundary are modelled shallowly:
strings as `String`, JSON numbers as `Int` (every numeric value occurring in the
verified claims is integral or absent), JS objects as association lists of
fields in insertion order where a later binding of the same key overrides an
earlier one (the semantics of object-literal spread), and `undefined` as
`Option.none`.  JSON arrays occur in none of the verified claims and are
omitted from the value model.
-/

/-- A JSON value as produced by `JSON.parse` / consumed by `JSON.stringify`
(arrays omitted, see the module comment; numbers modelled as integers). -/
inductive Json where
  | null
  | bool (b : Bool)
  | num (n : Int)
  | str (s : String)
  | obj (fields : List (String × Json))

/-- Field lookup in a JS object represented as a field list in insertion
order: the LAST binding of a key wins, which models the fact that in a JS
object literal a later (spread) field overrides an earlier one.  `none`
models `undefined`. -/
def objAssoc (fields : List (String × Json)) (key : String) : Option Json :=
  (fields.reverse.find? (fun p => p.1 == key)).map Prod.snd

/-- Property access `data[key]` on an arbitrary JSON value: objects look the
key up, primitives have no own properties and yield `undefined`. -/
def Json.get : Json → String → Option Json
  | Json.obj fields, key => objAssoc fields key
  | _, _ => none

/-- JS truthiness of a possibly-`undefined` value, as used by the source's
`if (!to || !message)` and `if (!latitude || !longitude)` checks:
`undefined`, `null`, `false`, `0` and `""` are falsy, everything else truthy. -/
def jsTruthy : Option Json → Bool
  | none => false
  | some Json.null => false
  | some (Json.bool b) => b
  | some (Json.num n) => !(n == 0)
  | some (Json.str s) => !(s == "")
  | some (Json.obj _) => true

/-- JS `String.prototype.includes`: substring containment (models
`phoneNumber.includes('@c.us')` and `message.toLowerCase().includes(...)`). -/
def strIncludes (s sub : String) : Bool :=
  decide (sub.data <:+: s.data)

/-- JS `String.prototype.toLowerCase`, modelled characterwise by
`Char.toLower` (ASCII case mapping). -/
def strToLower (s : String) : String :=
  String.mk (s.data.map Char.toLower)

/-- Spec-side predicate: `suffix` is a suffix of `s`.  The spec speaks of a
"recognized domain suffix"; this is the literal reading of that word, used to
compare the spec's wording with the source's substring test. -/
def hasSuffix (s suffix : String) : Bool :=
  decide (suffix.data <:+ s.data)

/-- The `filters` block of `api-config` (consumed by `shouldForwardMessage`,
`src/unnamed/part_000` lines 31-65). -/
structure Filters where
  skipOwnMessages : Bool
  skipGroupMessages : Bool
  allowedSenders : List String
  requiredKeywords : List String

/-- The `apiConfig` module object (read-only after startup). -/
structure ApiConfig where
  enabled : Bool
  endpoint : String
  apiKey : String
  headers : List (String × String)
  timeout : Nat
  retryAttempts : Nat
  retryDelay : Nat
  filters : Filters
  logSuccess : Bool
  logErrors : Bool
  debug : Bool

/-- The `additionalData` object built per inbound message
(`src/unnamed/part_000` lines 313-321): the InboundEvent metadata.  Note that
it carries a `timestamp` field holding the message's epoch-seconds timestamp. -/
structure AdditionalData where
  messageId : String
  chatType : String
  chatName : String
  messageType : String
  hasMedia : Bool
  timestamp : Int
  isFromMe : Bool

/-- `shouldForwardMessage(sender, message, additionalData)`
(`src/unnamed/part_000` lines 31-65; identical in `src/example.js` lines
25-59), with the module-global `apiConfig` made an explicit parameter.  The
source's nested keyword check (`if (length > 0) { if (!hasKeyword) return
false }`) is written as the single short-circuit conjunction it computes.
Case mapping of `toLowerCase` is modelled by `strToLower` (ASCII). -/
def shouldForwardMessage (cfg : ApiConfig) (sender message : String)
    (ad : AdditionalData) : Bool :=
  if !cfg.enabled then false
  else if cfg.filters.skipOwnMessages && ad.isFromMe then false
  else if cfg.filters.skipGroupMessages && (ad.chatType == "group") then false
  else if decide (0 < cfg.filters.allowedSenders.length)
          && !(cfg.filters.allowedSenders.contains sender) then false
  else if decide (0 < cfg.filters.requiredKeywords.length)
          && !(cfg.filters.requiredKeywords.any
                (fun keyword => strIncludes (strToLower message) (strToLower keyword))) then false
  else true

/-- The InboundEvent metadata as the field list `additionalData` contributes
to the payload (`src/unnamed/part_000` lines 313-321, field order as written). -/
def additionalDataFields (ad : AdditionalData) : List (String × Json) :=
  [("messageId", Json.str ad.messageId),
   ("chatType", Json.str ad.chatType),
   ("chatName", Json.str ad.chatName),
   ("messageType", Json.str ad.messageType),
   ("hasMedia", Json.bool ad.hasMedia),
   ("timestamp", Json.num ad.timestamp),
   ("isFromMe", Json.bool ad.isFromMe)]

/-- The payload object literal of `forwardMessageToAPI`
(`src/unnamed/part_000` lines 73-78):
`{ sender, message, timestamp: new Date().toISOString(), ...additionalData }`.
`isoNow` is the ISO-8601 string produced by `new Date().toISOString()` at
forwarding time.  The spread appends the `additionalData` fields AFTER the
three literal fields, so under last-binding-wins lookup (`objAssoc`) a
`timestamp` field of `additionalData` overrides the ISO-8601 one. -/
def buildPayload (sender message isoNow : String) (ad : AdditionalData) :
    List (String × Json) :=
  [("sender", Json.str sender),
   ("message", Json.str message),
   ("timestamp", Json.str isoNow)]
    ++ additionalDataFields ad

/-- Outcome of one `fetch` call of the delivery pipeline: either an HTTP
response with its status and body text, or a thrown transport-level error
(timeout, connection error, DNS failure) with the JS error's name and message. -/
inductive FetchResult where
  | response (status : Nat) (body : String)
  | fetchError (name message : String)

/-- `response.ok`: the status is in the 2xx success range. -/
def responseOk (status : Nat) : Bool :=
  decide (200 ≤ status ∧ status < 300)

/-- Whether a fetch outcome takes the success branch of the loop body. -/
def isSuccess : FetchResult → Bool
  | FetchResult.response status _ => responseOk status
  | FetchResult.fetchError _ _ => false

/-- One observable console event of `forwardMessageToAPI`
(`src/unnamed/part_000` lines 80-150).  Each block of consecutive
`console.log`/`console.error` calls guarded by one condition is modelled as
one event carrying the data those calls print. -/
inductive LogEvent where
  | debugAttempt (attempt total : Nat) (payload : List (String × Json))
  | debugSuccess (status : Nat)
  | successStatus (status : Nat)
  | debugFailed (status : Nat) (body : String)
  | failedStatus (status : Nat) (body : String)
  | debugNetworkError (name message : String)
  | networkError (attempt total : Nat) (message : String)
  | debugWaiting (delayMs : Nat)

/-- The observable behaviour of one run of the delivery pipeline: the boolean
it returns, the number of HTTP attempts it performed, the sleeps (in ms)
between consecutive attempts in order, and the console events it emitted. -/
structure DeliveryRun where
  result : Bool
  attempts : Nat
  delays : List Nat
  log : List LogEvent

/-- The retry loop of `forwardMessageToAPI` (`src/unnamed/part_000` lines
71-152): `for (let attempt = 1; attempt <= retryAttempts; attempt++)`,
written as structural recursion on the number `remaining + 1` of loop
iterations still allowed, with `attempt` the current (1-based) attempt
number; the top-level call is `attempt = 1`, `remaining + 1 = retryAttempts`,
so `remaining = 0` inside the body is exactly the source's
`attempt === retryAttempts` last-attempt test.  Branches mirror the source:
on `response.ok` return `true`; otherwise (non-2xx, or a thrown fetch error)
if this was the last attempt return `false`, else sleep `retryDelay` and
continue.  Console output follows the source's
`if (debug) ... else if (logSuccess/logErrors) ...` guards. -/
def forwardGoAux (cfg : ApiConfig) (payload : List (String × Json))
    (fetches : Nat → FetchResult) : Nat → Nat → DeliveryRun
  | _, 0 => { result := false, attempts := 0, delays := [], log := [] }
  | attempt, remaining + 1 =>
    match fetches attempt with
    | FetchResult.response status body =>
      if responseOk status then
        { result := true, attempts := 1, delays := [],
          log := (if cfg.debug then [LogEvent.debugAttempt attempt cfg.retryAttempts payload] else [])
              ++ (if cfg.debug then [LogEvent.debugSuccess status]
                  else if cfg.logSuccess then [LogEvent.successStatus status] else []) }
      else if remaining = 0 then
        { result := false, attempts := 1, delays := [],
          log := (if cfg.debug then [LogEvent.debugAttempt attempt cfg.retryAttempts payload] else [])
              ++ (if cfg.debug then [LogEvent.debugFailed status body]
                  else if cfg.logErrors then [LogEvent.failedStatus status body] else []) }
      else
        let rest := forwardGoAux cfg payload fetches (attempt + 1) remaining
        { result := rest.result, attempts := rest.attempts + 1,
          delays := cfg.retryDelay :: rest.delays,
          log := (if cfg.debug then [LogEvent.debugAttempt attempt cfg.retryAttempts payload] else [])
              ++ (if cfg.debug then [LogEvent.debugFailed status body]
                  else if cfg.logErrors then [LogEvent.failedStatus status body] else [])
              ++ (if cfg.debug then [LogEvent.debugWaiting cfg.retryDelay] else [])
              ++ rest.log }
    | FetchResult.fetchError name msg =>
      if remaining = 0 then
        { result := false, attempts := 1, delays := [],
          log := (if cfg.debug then [LogEvent.debugAttempt attempt cfg.retryAttempts payload] else [])
              ++ (if cfg.debug then [LogEvent.debugNetworkError name msg]
                  else if cfg.logErrors then [LogEvent.networkError attempt cfg.retryAttempts msg] else []) }
      else
        let rest := forwardGoAux cfg payload fetches (attempt + 1) remaining
        { result := rest.result, attempts := rest.attempts + 1,
          delays := cfg.retryDelay :: rest.delays,
          log := (if cfg.debug then [LogEvent.debugAttempt attempt cfg.retryAttempts payload] else [])
              ++ (if cfg.debug then [LogEvent.debugNetworkError name msg]
                  else if cfg.logErrors then [LogEvent.networkError attempt cfg.retryAttempts msg] else [])
              ++ (if cfg.debug then [LogEvent.debugWaiting cfg.retryDelay] else [])
              ++ rest.log }

/-- `forwardMessageToAPI(sender, message, additionalData)`
(`src/unnamed/part_000` lines 68-155; same control flow in `src/example.js`
lines 62-135).  `fetches k` is the outcome of the `fetch` performed by
attempt `k` (the external HTTP service's behaviour), `isoNow` the forwarding
timestamp string. -/
def forwardMessageToAPI (cfg : ApiConfig) (sender message : String)
    (ad : AdditionalData) (isoNow : String) (fetches : Nat → FetchResult) :
    DeliveryRun :=
  forwardGoAux cfg (buildPayload sender message isoNow ad) fetches 1 cfg.retryAttempts

/-- The control-flow core of the retry loop: result, attempt count and
delays, which depend only on the retry policy and the fetch outcomes — not
on the observability flags.  Used to factor the noninterference proof. -/
def forwardCore (delayMs : Nat) (fetches : Nat → FetchResult) :
    Nat → Nat → Bool × Nat × List Nat
  | _, 0 => (false, 0, [])
  | attempt, remaining + 1 =>
    if isSuccess (fetches attempt) then (true, 1, [])
    else if remaining = 0 then (false, 1, [])
    else
      let rest := forwardCore delayMs fetches (attempt + 1) remaining
      (rest.1, rest.2.1 + 1, delayMs :: rest.2.2)

/-- Projection of a run onto its control-flow-visible components. -/
def DeliveryRun.core (r : DeliveryRun) : Bool × Nat × List Nat :=
  (r.result, r.attempts, r.delays)

lemma forwardGoAux_core (cfg : ApiConfig) (payload : List (String × Json))
    (fetches : Nat → FetchResult) :
    ∀ remaining attempt,
      (forwardGoAux cfg payload fetches attempt remaining).core =
        forwardCore cfg.retryDelay fetches attempt remaining := by
  intro remaining
  induction remaining with
  | zero => intro attempt; rfl
  | succ r ih =>
    intro attempt
    cases hfa : fetches attempt with
    | response status body =>
      by_cases hok : responseOk status = true
      · simp [forwardGoAux, forwardCore, hfa, isSuccess, hok, DeliveryRun.core]
      · by_cases hr : r = 0
        · simp [forwardGoAux, forwardCore, hfa, isSuccess, hok, hr, DeliveryRun.core]
        · simp only [forwardGoAux, forwardCore, hfa, isSuccess, hok, hr,
            if_false, if_neg, Bool.false_eq_true, DeliveryRun.core]
          have := ih (attempt + 1)
          simp only [DeliveryRun.core] at this
          rw [← this]
    | fetchError name msg =>
      by_cases hr : r = 0
      · simp [forwardGoAux, forwardCore, hfa, isSuccess, hr, DeliveryRun.core]
      · simp only [forwardGoAux, forwardCore, hfa, isSuccess, hr,
          if_false, if_neg, Bool.false_eq_true, DeliveryRun.core]
        have := ih (attempt + 1)
        simp only [DeliveryRun.core] at this
        rw [← this]

/-- The receipt returned by `client.sendMessage` (Session Send Capability,
an external collaborator): `result.id._serialized` and `result.timestamp`. -/
structure Receipt where
  messageId : String
  timestamp : Int

/-- The payload handed to the Session Send Capability: a plain text message
(the `message` value from the request body) or a `Location` built as
`new Location(latitude, longitude, name, address)`. -/
inductive SendContent where
  | text (message : Json)
  | location (latitude longitude : Json) (name address : Option Json)

/-- One invocation of `client.sendMessage` made while serving a request. -/
structure SendCall where
  recipient : String
  content : SendContent

/-- An HTTP response written by the gateway: status code and optional JSON
body (`none` models `res.end()` with no body, as for `OPTIONS`). -/
structure GatewayResponse where
  status : Nat
  body : Option Json

/-- A JSON error body `{ error: msg }`. -/
def jsonError (msg : String) : Json :=
  Json.obj [("error", Json.str msg)]

/-- The 500 body `{ error: 'Failed to send message', details: e }` written by
the catch block of the `/send` handler (`src/unnamed/part_000` lines 589-593). -/
def failedSendBody (e : String) : Json :=
  Json.obj [("error", Json.str "Failed to send message"), ("details", Json.str e)]

/-- Modelled message of the `TypeError` thrown when destructuring a `null`
request body (`const { to, message, type } = data` with `data = null`). -/
def nullBodyErrorMessage : String :=
  "Cannot destructure property to of null"

/-- Modelled message of the `TypeError` thrown by `phoneNumber.includes(...)`
when the `to` field holds a truthy non-string value. -/
def includesErrorMessage : String :=
  "phoneNumber.includes is not a function"

/-- The authentication check (`src/unnamed/part_000` lines 528-534):
`const authHeader = req.headers.authorization;
if (!authHeader || authHeader !== `Bearer ...`) ...` — the header must be
present, truthy (non-empty) and exactly equal to `"Bearer " ++ token`. -/
def authOk (token : String) (authHeader : Option String) : Bool :=
  match authHeader with
  | none => false
  | some a => !(a == "") && (a == "Bearer " ++ token)

/-- An incoming HTTP request as the gateway handler observes it.
`bodyParse` is the outcome of `JSON.parse` on the fully accumulated request
body (`JSON.parse` is a JS builtin; an `Except.error` carries the thrown
parse error's message). -/
structure GatewayRequest where
  method : String
  path : String
  authorization : Option String
  bodyParse : Except String Json

/-- The `POST /send` body-end callback (`src/unnamed/part_000` lines
545-594).  The whole branch runs inside one `try`/`catch`, so a `JSON.parse`
failure, a destructuring `TypeError` on a `null` body, a `TypeError` from
`to.includes` on a non-string `to`, and a rejection of `client.sendMessage`
all land in the catch block, which answers
500 `{ error: 'Failed to send message', details }`.  `send` is the Session
Send Capability (`client.sendMessage`, an external collaborator); the second
component of the result records the invocations made of it. -/
def handleSend (send : String → SendContent → Except String Receipt)
    (bodyParse : Except String Json) : GatewayResponse × List SendCall :=
  match bodyParse with
  | Except.error e => ({ status := 500, body := some (failedSendBody e) }, [])
  | Except.ok data =>
    match data with
    | Json.null =>
      ({ status := 500, body := some (failedSendBody nullBodyErrorMessage) }, [])
    | _ =>
      let toField := data.get "to"
      let messageField := data.get "message"
      if !(jsTruthy toField) || !(jsTruthy messageField) then
        ({ status := 400,
           body := some (jsonError "Missing required fields: to, message") }, [])
      else
        match toField.getD Json.null with
        | Json.str toStr =>
          let phoneNumber :=
            if !(strIncludes toStr "@c.us") && !(strIncludes toStr "@g.us") then
              toStr ++ "@c.us"
            else toStr
          match (data.get "type").getD (Json.str "text") with
          | Json.str "text" =>
            let msgVal := messageField.getD Json.null
            ((match send phoneNumber (SendContent.text msgVal) with
              | Except.ok r =>
                { status := 200,
                  body := some (Json.obj
                    [("success", Json.bool true),
                     ("messageId", Json.str r.messageId),
                     ("timestamp", Json.num r.timestamp)]) }
              | Except.error e =>
                { status := 500, body := some (failedSendBody e) }),
             [{ recipient := phoneNumber, content := SendContent.text msgVal }])
          | Json.str "location" =>
            let latitude := data.get "latitude"
            let longitude := data.get "longitude"
            if !(jsTruthy latitude) || !(jsTruthy longitude) then
              ({ status := 400,
                 body := some (jsonError "Location requires latitude and longitude") }, [])
            else
              let content := SendContent.location (latitude.getD Json.null)
                (longitude.getD Json.null) (data.get "name") (data.get "address")
              ((match send phoneNumber content with
                | Except.ok r =>
                  { status := 200,
                    body := some (Json.obj
                      [("success", Json.bool true),
                       ("messageId", Json.str r.messageId),
                       ("timestamp", Json.num r.timestamp)]) }
                | Except.error e =>
                  { status := 500, body := some (failedSendBody e) }),
               [{ recipient := phoneNumber, content := content }])
          | _ =>
            ({ status := 400, body := some (jsonError "Unsupported message type") }, [])
        | _ =>
          ({ status := 500, body := some (failedSendBody includesErrorMessage) }, [])

/-- The gateway's request handler (`src/unnamed/part_000` lines 515-606), in
source order: CORS headers (not modelled: they are attached to every
response identically), `OPTIONS` preflight, the bearer-token check, then
routing to `POST /send`, `GET /status`, or 404.  `clientConnected` models
whether `client.info` is set (the session's ready handshake, an external
collaborator's state); `isoNow` the `new Date().toISOString()` value. -/
def handleRequest (token : String)
    (send : String → SendContent → Except String Receipt)
    (clientConnected : Bool) (isoNow : String) (req : GatewayRequest) :
    GatewayResponse × List SendCall :=
  if req.method == "OPTIONS" then
    ({ status := 200, body := none }, [])
  else if !(authOk token req.authorization) then
    ({ status := 401, body := some (jsonError "Unauthorized") }, [])
  else if req.method == "POST" && (req.path == "/send") then
    handleSend send req.bodyParse
  else if req.method == "GET" && (req.path == "/status") then
    ({ status := 200,
       body := some (Json.obj
         [("status", Json.str "running"),
          ("whatsapp", Json.str (if clientConnected then "connected" else "connecting")),
          ("timestamp", Json.str isoNow)]) }, [])
  else
    ({ status := 404, body := some (jsonError "Not found") }, [])

/-- A sample Session Send Capability used by concrete witnesses. -/
def sendEx : String → SendContent → Except String Receipt :=
  fun _ _ => Except.ok { messageId := "true_123@c.us_ABC", timestamp := 1700000000 }

/-- A sample ISO-8601 forwarding timestamp used by concrete witnesses. -/
def isoEx : String := "2026-01-01T00:00:00.000Z"

example :
    handleRequest "tok" sendEx true isoEx
      { method := "POST", path := "/send", authorization := some "Bearer tok",
        bodyParse := Except.ok (Json.obj
          [("to", Json.str "15551234567"), ("message", Json.str "hi")]) } =
    ({ status := 200,
       body := some (Json.obj
         [("success", Json.bool true),
          ("messageId", Json.str "true_123@c.us_ABC"),
          ("timestamp", Json.num 1700000000)]) },
     [{ recipient := "15551234567@c.us",
        content := SendContent.text (Json.str "hi") }]) := rfl

example :
    handleRequest "tok" sendEx true isoEx
      { method := "POST", path := "/send", authorization := none,
        bodyParse := Except.ok Json.null } =
    ({ status := 401, body := some (jsonError "Unauthorized") }, []) := rfl


/-- C1: for every config and inbound event, `shouldForwardMessage` returns
`true` exactly when every rule passes: relay enabled; not (skipOwnMessages
and own message); not (skipGroupMessages and group chat); allowedSenders
empty or containing the sender by exact match; requiredKeywords empty or
some keyword a case-insensitive substring of the body (OR semantics).  The
function is a pure Lean function of its arguments, so it is side-effect free
and deterministic by construction; the definition evaluates the rules in the
source's order, short-circuiting at the first failing rule. -/
theorem shouldForwardMessage_spec (cfg : ApiConfig) (sender message : String)
    (ad : AdditionalData) :
    shouldForwardMessage cfg sender message ad = true ↔
      (cfg.enabled = true ∧
       (cfg.filters.skipOwnMessages = true → ad.isFromMe = false) ∧
       (cfg.filters.skipGroupMessages = true → ad.chatType ≠ "group") ∧
       (cfg.filters.allowedSenders ≠ [] → sender ∈ cfg.filters.allowedSenders) ∧
       (cfg.filters.requiredKeywords ≠ [] →
         ∃ kw ∈ cfg.filters.requiredKeywords,
           strIncludes (strToLower message) (strToLower kw) = true)) := by
  unfold shouldForwardMessage
  split_ifs with h1 h2 h3 h4 h5 <;>
    simp_all [List.length_pos, List.contains, Bool.not_eq_true',
      Bool.and_eq_true, beq_iff_eq, not_imp_not]


lemma forwardCore_allFail (delayMs : Nat) (fetches : Nat → FetchResult) :
    ∀ remaining attempt, 1 ≤ remaining →
      (∀ k, attempt ≤ k → k < attempt + remaining → isSuccess (fetches k) = false) →
      forwardCore delayMs fetches attempt remaining =
        (false, remaining, List.replicate (remaining - 1) delayMs) := by
  intro remaining
  induction remaining with
  | zero => intro attempt h; omega
  | succ r ih =>
    intro attempt _ hfail
    have hthis : isSuccess (fetches attempt) = false :=
      hfail attempt (Nat.le_refl _) (by omega)
    rcases Nat.eq_zero_or_pos r with hr | hr
    · subst hr
      simp [forwardCore, hthis]
    · have hrec := ih (attempt + 1) hr (fun k hk1 hk2 => hfail k (by omega) (by omega))
      have hr0 : r ≠ 0 := by omega
      have hrep : delayMs :: List.replicate (r - 1) delayMs
          = List.replicate (r + 1 - 1) delayMs := by
        have h : r + 1 - 1 = (r - 1) + 1 := by omega
        rw [h, List.replicate_succ]
      simp [forwardCore, hthis, hr0, hrec, hrep]

lemma forwardCore_successAt (delayMs : Nat) (fetches : Nat → FetchResult) :
    ∀ remaining attempt k, attempt ≤ k → k < attempt + remaining →
      (∀ j, attempt ≤ j → j < k → isSuccess (fetches j) = false) →
      isSuccess (fetches k) = true →
      forwardCore delayMs fetches attempt remaining =
        (true, k + 1 - attempt, List.replicate (k - attempt) delayMs) := by
  intro remaining
  induction remaining with
  | zero => intro attempt k h1 h2 _ _; omega
  | succ r ih =>
    intro attempt k hak hkr hfail hsucc
    rcases Nat.eq_or_lt_of_le hak with heq | hlt
    · subst heq
      simp [forwardCore, hsucc]
    · have hthis : isSuccess (fetches attempt) = false :=
        hfail attempt (Nat.le_refl _) hlt
      have hr0 : r ≠ 0 := by omega
      have hrec := ih (attempt + 1) k (by omega) (by omega)
        (fun j hj1 hj2 => hfail j (by omega) hj2) hsucc
      have hrep : delayMs :: List.replicate (k - (attempt + 1)) delayMs
          = List.replicate (k - attempt) delayMs := by
        have h : k - attempt = (k - (attempt + 1)) + 1 := by omega
        rw [h, List.replicate_succ]
      have hnum : k + 1 - (attempt + 1) + 1 = k + 1 - attempt := by omega
      simp [forwardCore, hthis, hr0, hrec, hrep, hnum]
      omega

/-- C2: if `retryAttempts = N ≥ 1` and every one of the `N` HTTP attempts
fails (non-2xx response or transport-level error), then `forwardMessageToAPI`
returns `false`, performs exactly `N` attempts, and sleeps exactly `N - 1`
times of `retryDelay` ms each between consecutive attempts. -/
theorem forwardMessageToAPI_allFail (cfg : ApiConfig) (sender message : String)
    (ad : AdditionalData) (isoNow : String) (fetches : Nat → FetchResult)
    (hN : 1 ≤ cfg.retryAttempts)
    (hfail : ∀ k, 1 ≤ k → k ≤ cfg.retryAttempts → isSuccess (fetches k) = false) :
    (forwardMessageToAPI cfg sender message ad isoNow fetches).result = false ∧
    (forwardMessageToAPI cfg sender message ad isoNow fetches).attempts =
      cfg.retryAttempts ∧
    (forwardMessageToAPI cfg sender message ad isoNow fetches).delays =
      List.replicate (cfg.retryAttempts - 1) cfg.retryDelay := by
  have hcore := forwardGoAux_core cfg (buildPayload sender message isoNow ad)
    fetches cfg.retryAttempts 1
  have hall := forwardCore_allFail cfg.retryDelay fetches cfg.retryAttempts 1 hN
    (fun k hk1 hk2 => hfail k hk1 (by omega))
  rw [hall] at hcore
  unfold forwardMessageToAPI
  have h1 := congrArg Prod.fst hcore
  have h2 := congrArg (fun p => p.2.1) hcore
  have h3 := congrArg (fun p => p.2.2) hcore
  exact ⟨h1, h2, h3⟩

/-- A config used by concrete witnesses: 3 retry attempts, 250 ms delay. -/
def cfgEx : ApiConfig :=
  { enabled := true, endpoint := "https://api.example.com/hook",
    apiKey := "k", headers := [("Content-Type", "application/json")],
    timeout := 5000, retryAttempts := 3, retryDelay := 250,
    filters := { skipOwnMessages := true, skipGroupMessages := false,
                 allowedSenders := [], requiredKeywords := [] },
    logSuccess := true, logErrors := true, debug := false }

/-- Sample InboundEvent metadata used by concrete witnesses. -/
def adEx : AdditionalData :=
  { messageId := "false_123@c.us_XYZ", chatType := "private",
    chatName := "Alice", messageType := "chat", hasMedia := false,
    timestamp := 1694456538, isFromMe := false }

/-- A permanently failing endpoint: every attempt receives HTTP 503. -/
def fetchAllFailEx : Nat → FetchResult :=
  fun _ => FetchResult.response 503 "Service Unavailable"

theorem forwardMessageToAPI_allFail_witness :
    (forwardMessageToAPI cfgEx "a@c.us" "hello" adEx isoEx fetchAllFailEx).result = false ∧
    (forwardMessageToAPI cfgEx "a@c.us" "hello" adEx isoEx fetchAllFailEx).attempts =
      cfgEx.retryAttempts ∧
    (forwardMessageToAPI cfgEx "a@c.us" "hello" adEx isoEx fetchAllFailEx).delays =
      List.replicate (cfgEx.retryAttempts - 1) cfgEx.retryDelay :=
  forwardMessageToAPI_allFail cfgEx "a@c.us" "hello" adEx isoEx fetchAllFailEx
    (by decide) (fun k _ _ => rfl)

/-- C7: if the first `k - 1` attempts fail and attempt `k ≤ N` receives a
2xx response, `forwardMessageToAPI` returns `true` having performed exactly
`k` attempts — it stops immediately, no further attempt is made. -/
theorem forwardMessageToAPI_successAt (cfg : ApiConfig) (sender message : String)
    (ad : AdditionalData) (isoNow : String) (fetches : Nat → FetchResult)
    (k : Nat) (hk1 : 1 ≤ k) (hkN : k ≤ cfg.retryAttempts)
    (hfail : ∀ j, 1 ≤ j → j < k → isSuccess (fetches j) = false)
    (hsucc : isSuccess (fetches k) = true) :
    (forwardMessageToAPI cfg sender message ad isoNow fetches).result = true ∧
    (forwardMessageToAPI cfg sender message ad isoNow fetches).attempts = k := by
  have hcore := forwardGoAux_core cfg (buildPayload sender message isoNow ad)
    fetches cfg.retryAttempts 1
  have hs := forwardCore_successAt cfg.retryDelay fetches cfg.retryAttempts 1 k
    hk1 (by omega) (fun j hj1 hj2 => hfail j hj1 hj2) hsucc
  rw [hs] at hcore
  unfold forwardMessageToAPI
  have h1 := congrArg Prod.fst hcore
  have h2 := congrArg (fun p => p.2.1) hcore
  refine ⟨h1, ?_⟩
  simpa using h2

/-- An endpoint that fails twice (HTTP 500, then a thrown timeout) and then
succeeds with HTTP 200 on the third attempt. -/
def fetchThirdOkEx : Nat → FetchResult :=
  fun k => if k = 1 then FetchResult.response 500 "oops"
    else if k = 2 then FetchResult.fetchError "FetchError" "network timeout"
    else FetchResult.response 200 "accepted"

theorem forwardMessageToAPI_successAt_witness :
    (forwardMessageToAPI cfgEx "a@c.us" "hello" adEx isoEx fetchThirdOkEx).result = true ∧
    (forwardMessageToAPI cfgEx "a@c.us" "hello" adEx isoEx fetchThirdOkEx).attempts = 3 :=
  forwardMessageToAPI_successAt cfgEx "a@c.us" "hello" adEx isoEx fetchThirdOkEx
    3 (by decide) (by decide)
    (by intro j hj1 hj2; interval_cases j <;> rfl) (by rfl)

/-- C9: two-run noninterference of the observability flags.  For the same
event, config and fetch outcomes, changing `logSuccess`, `logErrors` and
`debug` to any values leaves the returned boolean, the number of attempts
and the inter-attempt delays of `forwardMessageToAPI` unchanged: the flags
influence only the `log` component. -/
theorem forwardMessageToAPI_flag_noninterference (cfg : ApiConfig)
    (sender message : String) (ad : AdditionalData) (isoNow : String)
    (fetches : Nat → FetchResult) (ls le db : Bool) :
    (forwardMessageToAPI { cfg with logSuccess := ls, logErrors := le, debug := db }
        sender message ad isoNow fetches).result =
      (forwardMessageToAPI cfg sender message ad isoNow fetches).result ∧
    (forwardMessageToAPI { cfg with logSuccess := ls, logErrors := le, debug := db }
        sender message ad isoNow fetches).attempts =
      (forwardMessageToAPI cfg sender message ad isoNow fetches).attempts ∧
    (forwardMessageToAPI { cfg with logSuccess := ls, logErrors := le, debug := db }
        sender message ad isoNow fetches).delays =
      (forwardMessageToAPI cfg sender message ad isoNow fetches).delays := by
  have h1 := forwardGoAux_core { cfg with logSuccess := ls, logErrors := le, debug := db }
    (buildPayload sender message isoNow ad) fetches cfg.retryAttempts 1
  have h2 := forwardGoAux_core cfg (buildPayload sender message isoNow ad)
    fetches cfg.retryAttempts 1
  have hcore : (forwardMessageToAPI { cfg with logSuccess := ls, logErrors := le, debug := db }
      sender message ad isoNow fetches).core =
      (forwardMessageToAPI cfg sender message ad isoNow fetches).core := by
    unfold forwardMessageToAPI
    simp only at h1 h2
    rw [h1, h2]
  exact ⟨congrArg (fun p => p.1) hcore, congrArg (fun p => p.2.1) hcore,
    congrArg (fun p => p.2.2) hcore⟩


/-- C3 (counterexample): the forwarded payload does NOT carry the ISO-8601
forwarding timestamp under the key `timestamp`.  The object-literal spread
`...additionalData` comes after `timestamp: new Date().toISOString()`, and
`additionalData` itself has a `timestamp` field (the message's epoch-seconds
timestamp, `src/unnamed/part_000` line 319), so the spread overrides the
ISO-8601 value: at this concrete event the `timestamp` key holds the number
1694456538, not the forwarding-time ISO string. -/
theorem payload_timestamp_counterexample :
    objAssoc (buildPayload "a@c.us" "hello" isoEx adEx) "timestamp" =
      some (Json.num 1694456538) ∧
    objAssoc (buildPayload "a@c.us" "hello" isoEx adEx) "timestamp" ≠
      some (Json.str isoEx) := by
  refine ⟨rfl, fun h => ?_⟩
  have h2 := Option.some.inj h
  exact Json.noConfusion h2

/-- C3 (amended): every payload POSTed by the delivery pipeline contains
`sender`, `message` and all InboundEvent metadata fields (`messageId`,
`chatType`, `chatName`, `messageType`, `hasMedia`, `isFromMe`), but the key
`timestamp` holds the event's epoch-seconds timestamp from `additionalData`,
which overrides the ISO-8601 forwarding timestamp because the spread of
`additionalData` comes last in the object literal. -/
theorem payload_fields_spec (sender message isoNow : String) (ad : AdditionalData) :
    objAssoc (buildPayload sender message isoNow ad) "sender" =
      some (Json.str sender) ∧
    objAssoc (buildPayload sender message isoNow ad) "message" =
      some (Json.str message) ∧
    objAssoc (buildPayload sender message isoNow ad) "timestamp" =
      some (Json.num ad.timestamp) ∧
    objAssoc (buildPayload sender message isoNow ad) "messageId" =
      some (Json.str ad.messageId) ∧
    objAssoc (buildPayload sender message isoNow ad) "chatType" =
      some (Json.str ad.chatType) ∧
    objAssoc (buildPayload sender message isoNow ad) "chatName" =
      some (Json.str ad.chatName) ∧
    objAssoc (buildPayload sender message isoNow ad) "messageType" =
      some (Json.str ad.messageType) ∧
    objAssoc (buildPayload sender message isoNow ad) "hasMedia" =
      some (Json.bool ad.hasMedia) ∧
    objAssoc (buildPayload sender message isoNow ad) "isFromMe" =
      some (Json.bool ad.isFromMe) :=
  ⟨rfl, rfl, rfl, rfl, rfl, rfl, rfl, rfl, rfl⟩

/-- C5: every non-`OPTIONS` request whose `Authorization` header is absent
or differs from the exact string `Bearer {authToken}` is answered 401 with
body `{error: "Unauthorized"}`, whatever the method, path and request body —
in particular the response is computed before any body work or routing, and
the Session Send Capability is never invoked. -/
theorem unauthorized_401 (token : String)
    (send : String → SendContent → Except String Receipt)
    (clientConnected : Bool) (isoNow : String) (req : GatewayRequest)
    (hm : req.method ≠ "OPTIONS")
    (ha : req.authorization ≠ some ("Bearer " ++ token)) :
    handleRequest token send clientConnected isoNow req =
      ({ status := 401, body := some (jsonError "Unauthorized") }, []) := by
  have hauth : authOk token req.authorization = false := by
    cases hcase : req.authorization with
    | none => rfl
    | some a =>
      have hne : a ≠ "Bearer " ++ token := by
        intro hcontra; exact ha (by rw [hcase, hcontra])
      simp [authOk, hne]
  simp [handleRequest, hm, hauth]

/-- A well-formed `/send` request carrying no `Authorization` header. -/
def reqNoAuthEx : GatewayRequest :=
  { method := "POST", path := "/send", authorization := none,
    bodyParse := Except.ok (Json.obj
      [("to", Json.str "15551234567"), ("message", Json.str "hi")]) }

theorem unauthorized_401_witness :
    handleRequest "tok" sendEx true isoEx reqNoAuthEx =
      ({ status := 401, body := some (jsonError "Unauthorized") }, []) :=
  unauthorized_401 "tok" sendEx true isoEx reqNoAuthEx (by decide) (by decide)


/-- An authenticated `POST /send` whose body is not parseable as JSON
(`JSON.parse` throws with this message). -/
def reqBadJsonEx : GatewayRequest :=
  { method := "POST", path := "/send", authorization := some "Bearer tok",
    bodyParse := Except.error "Unexpected token o in JSON at position 1" }

/-- C4 (counterexample): a `POST /send` with valid auth and a malformed JSON
body is answered with status 500 — a 5xx, not the 4xx the claim demands.
`JSON.parse(body)` sits inside the handler's `try`, so its exception lands in
the `catch` block that writes 500 `{error: 'Failed to send message', ...}`. -/
theorem malformed_json_counterexample :
    (handleRequest "tok" sendEx true isoEx reqBadJsonEx).1.status = 500 ∧
    ¬(400 ≤ (handleRequest "tok" sendEx true isoEx reqBadJsonEx).1.status ∧
      (handleRequest "tok" sendEx true isoEx reqBadJsonEx).1.status < 500) :=
  ⟨rfl, by decide⟩

/-- C4 (amended): for every `POST /send` with valid auth whose body is not
parseable as JSON, the gateway responds 500 with the JSON body
`{error: "Failed to send message", details: <parse error message>}` — a
machine-readable `error` field, never silently dropped, and the Session Send
Capability is never invoked; but the status is 500, not a 4xx. -/
theorem malformed_json_500 (token : String)
    (send : String → SendContent → Except String Receipt)
    (clientConnected : Bool) (isoNow : String) (req : GatewayRequest) (e : String)
    (hm : req.method = "POST") (hp : req.path = "/send")
    (ha : authOk token req.authorization = true)
    (hb : req.bodyParse = Except.error e) :
    handleRequest token send clientConnected isoNow req =
      ({ status := 500, body := some (failedSendBody e) }, []) := by
  simp [handleRequest, handleSend, hm, hp, ha, hb]

theorem malformed_json_500_witness :
    handleRequest "tok" sendEx true isoEx reqBadJsonEx =
      ({ status := 500,
         body := some (failedSendBody "Unexpected token o in JSON at position 1") }, []) :=
  malformed_json_500 "tok" sendEx true isoEx reqBadJsonEx
    "Unexpected token o in JSON at position 1" rfl rfl rfl rfl


lemma jsTruthy_none : jsTruthy none = false := rfl

lemma jsTruthy_str (s : String) : jsTruthy (some (Json.str s)) = !(s == "") := rfl

lemma jsTruthy_num (n : Int) : jsTruthy (some (Json.num n)) = !(n == 0) := rfl

/-- C6 (counterexample): the claim's universally quantified part fails.
`"x@g.usy"` ends with neither the direct-chat suffix `@c.us` nor the group
suffix `@g.us`, so by the claim the gateway should append `@c.us` before
invoking the Session Send Capability; but the source tests
`phoneNumber.includes(...)` — substring containment, not a suffix test — and
`"x@g.usy"` CONTAINS `"@g.us"`, so it is passed through unchanged. -/
theorem recipient_suffix_counterexample :
    hasSuffix "x@g.usy" "@c.us" = false ∧
    hasSuffix "x@g.usy" "@g.us" = false ∧
    (handleRequest "tok" sendEx true isoEx
      { method := "POST", path := "/send", authorization := some "Bearer tok",
        bodyParse := Except.ok (Json.obj
          [("to", Json.str "x@g.usy"), ("message", Json.str "hi")]) }).2 =
      [{ recipient := "x@g.usy", content := SendContent.text (Json.str "hi") }] ∧
    ("x@g.usy" : String) ≠ "x@g.usy" ++ "@c.us" :=
  ⟨by decide, by decide, rfl, by decide⟩

/-- C6 (amended): the recipient passed to the Session Send Capability is
`to ++ "@c.us"` when `to` CONTAINS neither `"@c.us"` nor `"@g.us"` as a
substring (the source's `includes` test — not a suffix test), and `to`
unchanged otherwise; in particular `"15551234567"` is forwarded as
`"15551234567@c.us"` and `"abc@g.us"` unchanged (see the witness). -/
theorem recipient_normalization (token : String)
    (send : String → SendContent → Except String Receipt)
    (clientConnected : Bool) (isoNow : String) (auth : Option String)
    (fields : List (String × Json)) (toStr : String) (msgVal : Json)
    (ha : authOk token auth = true)
    (hto : objAssoc fields "to" = some (Json.str toStr))
    (htoNe : toStr ≠ "")
    (hmsg : objAssoc fields "message" = some msgVal)
    (hmsgT : jsTruthy (some msgVal) = true)
    (hty : objAssoc fields "type" = none) :
    (handleRequest token send clientConnected isoNow
      { method := "POST", path := "/send", authorization := auth,
        bodyParse := Except.ok (Json.obj fields) }).2 =
      [{ recipient :=
           if !(strIncludes toStr "@c.us") && !(strIncludes toStr "@g.us") then
             toStr ++ "@c.us"
           else toStr,
         content := SendContent.text msgVal }] := by
  have htoBeq : (toStr == "") = false := beq_eq_false_iff_ne.mpr htoNe
  simp [handleRequest, handleSend, Json.get, ha, hto, hmsg, hty, hmsgT,
    jsTruthy_str, htoBeq]

theorem recipient_normalization_witness :
    (handleRequest "tok" sendEx true isoEx
      { method := "POST", path := "/send", authorization := some "Bearer tok",
        bodyParse := Except.ok (Json.obj
          [("to", Json.str "15551234567"), ("message", Json.str "hi")]) }).2 =
      [{ recipient :=
           if !(strIncludes "15551234567" "@c.us") && !(strIncludes "15551234567" "@g.us") then
             "15551234567" ++ "@c.us"
           else "15551234567",
         content := SendContent.text (Json.str "hi") }] ∧
    (handleRequest "tok" sendEx true isoEx
      { method := "POST", path := "/send", authorization := some "Bearer tok",
        bodyParse := Except.ok (Json.obj
          [("to", Json.str "abc@g.us"), ("message", Json.str "hi")]) }).2 =
      [{ recipient :=
           if !(strIncludes "abc@g.us" "@c.us") && !(strIncludes "abc@g.us" "@g.us") then
             "abc@g.us" ++ "@c.us"
           else "abc@g.us",
         content := SendContent.text (Json.str "hi") }] :=
  ⟨recipient_normalization "tok" sendEx true isoEx (some "Bearer tok")
      [("to", Json.str "15551234567"), ("message", Json.str "hi")]
      "15551234567" (Json.str "hi") rfl rfl (by decide) rfl rfl rfl,
    recipient_normalization "tok" sendEx true isoEx (some "Bearer tok")
      [("to", Json.str "abc@g.us"), ("message", Json.str "hi")]
      "abc@g.us" (Json.str "hi") rfl rfl (by decide) rfl rfl rfl⟩


/-- C8: an authenticated `POST /send` with `type = "location"` whose body
lacks `latitude` or lacks `longitude` is answered 400
`{error: "Location requires latitude and longitude"}`, and the Session Send
Capability is never invoked (the send-call list is empty). -/
theorem location_missing_coordinates (token : String)
    (send : String → SendContent → Except String Receipt)
    (clientConnected : Bool) (isoNow : String) (auth : Option String)
    (fields : List (String × Json)) (toStr : String) (msgVal : Json)
    (ha : authOk token auth = true)
    (hto : objAssoc fields "to" = some (Json.str toStr))
    (htoNe : toStr ≠ "")
    (hmsg : objAssoc fields "message" = some msgVal)
    (hmsgT : jsTruthy (some msgVal) = true)
    (hty : objAssoc fields "type" = some (Json.str "location"))
    (hcoord : objAssoc fields "latitude" = none ∨ objAssoc fields "longitude" = none) :
    handleRequest token send clientConnected isoNow
      { method := "POST", path := "/send", authorization := auth,
        bodyParse := Except.ok (Json.obj fields) } =
      ({ status := 400,
         body := some (jsonError "Location requires latitude and longitude") }, []) := by
  have htoBeq : (toStr == "") = false := beq_eq_false_iff_ne.mpr htoNe
  rcases hcoord with hlat | hlon
  · simp [handleRequest, handleSend, Json.get, ha, hto, hmsg, hty, hmsgT,
      jsTruthy_str, jsTruthy_none, htoBeq, hlat]
  · simp [handleRequest, handleSend, Json.get, ha, hto, hmsg, hty, hmsgT,
      jsTruthy_str, jsTruthy_none, htoBeq, hlon]

theorem location_missing_coordinates_witness :
    handleRequest "tok" sendEx true isoEx
      { method := "POST", path := "/send", authorization := some "Bearer tok",
        bodyParse := Except.ok (Json.obj
          [("to", Json.str "15551234567"), ("message", Json.str "here"),
           ("type", Json.str "location")]) } =
      ({ status := 400,
         body := some (jsonError "Location requires latitude and longitude") }, []) :=
  location_missing_coordinates "tok" sendEx true isoEx (some "Bearer tok")
    [("to", Json.str "15551234567"), ("message", Json.str "here"),
     ("type", Json.str "location")]
    "15551234567" (Json.str "here") rfl rfl (by decide) rfl rfl rfl (Or.inl rfl)

/-- C10: the `POST /send` validations test truthiness, not key presence.
First two parts: a request whose `to` (resp. `message`) is present but equal
to the empty string is answered 400
`{error: "Missing required fields: to, message"}` with no send call.  Last
two parts: a location request whose `latitude` (resp. `longitude`) is
present but equal to `0` is answered 400
`{error: "Location requires latitude and longitude"}` with no send call. -/
theorem truthiness_validation :
    (∀ (token : String) (send : String → SendContent → Except String Receipt)
       (clientConnected : Bool) (isoNow : String) (auth : Option String)
       (fields : List (String × Json)),
      authOk token auth = true →
      objAssoc fields "to" = some (Json.str "") →
      handleRequest token send clientConnected isoNow
        { method := "POST", path := "/send", authorization := auth,
          bodyParse := Except.ok (Json.obj fields) } =
        ({ status := 400,
           body := some (jsonError "Missing required fields: to, message") }, [])) ∧
    (∀ (token : String) (send : String → SendContent → Except String Receipt)
       (clientConnected : Bool) (isoNow : String) (auth : Option String)
       (fields : List (String × Json)),
      authOk token auth = true →
      objAssoc fields "message" = some (Json.str "") →
      handleRequest token send clientConnected isoNow
        { method := "POST", path := "/send", authorization := auth,
          bodyParse := Except.ok (Json.obj fields) } =
        ({ status := 400,
           body := some (jsonError "Missing required fields: to, message") }, [])) ∧
    (∀ (token : String) (send : String → SendContent → Except String Receipt)
       (clientConnected : Bool) (isoNow : String) (auth : Option String)
       (fields : List (String × Json)) (toStr : String) (msgVal : Json),
      authOk token auth = true →
      objAssoc fields "to" = some (Json.str toStr) → toStr ≠ "" →
      objAssoc fields "message" = some msgVal → jsTruthy (some msgVal) = true →
      objAssoc fields "type" = some (Json.str "location") →
      objAssoc fields "latitude" = some (Json.num 0) →
      handleRequest token send clientConnected isoNow
        { method := "POST", path := "/send", authorization := auth,
          bodyParse := Except.ok (Json.obj fields) } =
        ({ status := 400,
           body := some (jsonError "Location requires latitude and longitude") }, [])) ∧
    (∀ (token : String) (send : String → SendContent → Except String Receipt)
       (clientConnected : Bool) (isoNow : String) (auth : Option String)
       (fields : List (String × Json)) (toStr : String) (msgVal : Json),
      authOk token auth = true →
      objAssoc fields "to" = some (Json.str toStr) → toStr ≠ "" →
      objAssoc fields "message" = some msgVal → jsTruthy (some msgVal) = true →
      objAssoc fields "type" = some (Json.str "location") →
      objAssoc fields "longitude" = some (Json.num 0) →
      handleRequest token send clientConnected isoNow
        { method := "POST", path := "/send", authorization := auth,
          bodyParse := Except.ok (Json.obj fields) } =
        ({ status := 400,
           body := some (jsonError "Location requires latitude and longitude") }, [])) := by
  refine ⟨?_, ?_, ?_, ?_⟩
  · intro token send clientConnected isoNow auth fields ha hto
    simp [handleRequest, handleSend, Json.get, ha, hto, jsTruthy_str]
  · intro token send clientConnected isoNow auth fields ha hmsg
    simp [handleRequest, handleSend, Json.get, ha, hmsg, jsTruthy_str]
  · intro token send clientConnected isoNow auth fields toStr msgVal
      ha hto htoNe hmsg hmsgT hty hlat
    have htoBeq : (toStr == "") = false := beq_eq_false_iff_ne.mpr htoNe
    simp [handleRequest, handleSend, Json.get, ha, hto, hmsg, hty, hmsgT,
      jsTruthy_str, jsTruthy_num, htoBeq, hlat]
  · intro token send clientConnected isoNow auth fields toStr msgVal
      ha hto htoNe hmsg hmsgT hty hlon
    have htoBeq : (toStr == "") = false := beq_eq_false_iff_ne.mpr htoNe
    simp [handleRequest, handleSend, Json.get, ha, hto, hmsg, hty, hmsgT,
      jsTruthy_str, jsTruthy_num, htoBeq, hlon]

theorem truthiness_validation_witness :
    handleRequest "tok" sendEx true isoEx
      { method := "POST", path := "/send", authorization := some "Bearer tok",
        bodyParse := Except.ok (Json.obj
          [("to", Json.str ""), ("message", Json.str "hi")]) } =
      ({ status := 400,
         body := some (jsonError "Missing required fields: to, message") }, []) ∧
    handleRequest "tok" sendEx true isoEx
      { method := "POST", path := "/send", authorization := some "Bearer tok",
        bodyParse := Except.ok (Json.obj
          [("to", Json.str "15551234567"), ("message", Json.str "")]) } =
      ({ status := 400,
         body := some (jsonError "Missing required fields: to, message") }, []) ∧
    handleRequest "tok" sendEx true isoEx
      { method := "POST", path := "/send", authorization := some "Bearer tok",
        bodyParse := Except.ok (Json.obj
          [("to", Json.str "15551234567"), ("message", Json.str "here"),
           ("type", Json.str "location"), ("latitude", Json.num 0),
           ("longitude", Json.num 35)]) } =
      ({ status := 400,
         body := some (jsonError "Location requires latitude and longitude") }, []) ∧
    handleRequest "tok" sendEx true isoEx
      { method := "POST", path := "/send", authorization := some "Bearer tok",
        bodyParse := Except.ok (Json.obj
          [("to", Json.str "15551234567"), ("message", Json.str "here"),
           ("type", Json.str "location"), ("latitude", Json.num 32),
           ("longitude", Json.num 0)]) } =
      ({ status := 400,
         body := some (jsonError "Location requires latitude and longitude") }, []) :=
  ⟨truthiness_validation.1 "tok" sendEx true isoEx (some "Bearer tok")
      [("to", Json.str ""), ("message", Json.str "hi")] rfl rfl,
   truthiness_validation.2.1 "tok" sendEx true isoEx (some "Bearer tok")
      [("to", Json.str "15551234567"), ("message", Json.str "")] rfl rfl,
   truthiness_validation.2.2.1 "tok" sendEx true isoEx (some "Bearer tok")
      [("to", Json.str "15551234567"), ("message", Json.str "here"),
       ("type", Json.str "location"), ("latitude", Json.num 0),
       ("longitude", Json.num 35)]
      "15551234567" (Json.str "here") rfl rfl (by decide) rfl rfl rfl rfl,
   truthiness_validation.2.2.2 "tok" sendEx true isoEx (some "Bearer tok")
      [("to", Json.str "15551234567"), ("message", Json.str "here"),
       ("type", Json.str "location"), ("latitude", Json.num 32),
       ("longitude", Json.num 0)]
      "15551234567" (Json.str "here") rfl rfl (by decide) rfl rfl rfl rfl⟩

example :
    shouldForwardMessage { cfgEx with enabled := false } "a@c.us" "hi" adEx = false := rfl

example :
    shouldForwardMessage cfgEx "a@c.us" "hi" { adEx with isFromMe := true } = false := rfl

example :
    shouldForwardMessage
      { cfgEx with filters := { cfgEx.filters with allowedSenders := ["b@c.us"] } }
      "a@c.us" "hi" adEx = false := rfl

example :
    shouldForwardMessage
      { cfgEx with filters := { cfgEx.filters with requiredKeywords := ["URGENT"] } }
      "a@c.us" "this is Urgent now" adEx = true := by decide

example :
    shouldForwardMessage
      { cfgEx with filters := { cfgEx.filters with requiredKeywords := ["URGENT"] } }
      "a@c.us" "nothing to see" adEx = false := by decide

example :
    (forwardMessageToAPI cfgEx "a@c.us" "hi" adEx isoEx fetchThirdOkEx).delays =
      [250, 250] := rfl

example : strIncludes "Hello World" "lo W" = true := by decide
example : strIncludes "abc" "d" = false := by decide
example : hasSuffix "x@g.usy" "@g.us" = false := by decide
example : hasSuffix "abc@g.us" "@g.us" = true := by decide
example :
    objAssoc (buildPayload "a" "b" "ISO"
      { messageId := "m", chatType := "private", chatName := "c",
        messageType := "chat", hasMedia := false, timestamp := 7,
        isFromMe := false }) "timestamp" = some (Json.num 7) := rfl
